import Mathlib

/-!
Verification of the analytics derivation core of the TCM_FBT dashboard
(`analysisResults` in `src/app/page.tsx`, lines 552-625).

The embedding follows the TypeScript source directly:
* numeric fields are exact rationals (`ℚ`);
* a record's `date` is the millisecond timestamp `new Date(record.date).getTime()`
  as an `Int`;
* `Array.prototype.sort` with the comparator
  `(a, b) => new Date(a.date).getTime() - new Date(b.date).getTime()` is a stable
  sort by date, embedded as `List.insertionSort` on `a.date ≤ b.date` (stable,
  ties keep input order, exactly as the ECMAScript specification requires);
* `x.toFixed(1)` / `x.toFixed(2)` followed by unary `+` round a value to one /
  two decimals with ties away from zero toward +∞, embedded as `round1` /
  `round2` via the floor of `10·x + 1/2` (resp. `100·x + 1/2`);
* `daysBetween / 7 || 1` substitutes the divisor `1` exactly when
  `daysBetween / 7` evaluates to `0`, i.e. when `daysBetween = 0`.
-/

namespace TCMFBT

/-- One biometric measurement event (`interface WeightRecord`, page.tsx:42-53).
`date` is the record's timestamp in milliseconds since the epoch. -/
structure WeightRecord where
  id : Int
  date : Int
  bmi : ℚ
  weight : ℚ
  bodyFat : ℚ
  visceralFat : ℚ
  waterRate : ℚ
  muscleMass : ℚ
  boneMineral : ℚ
  bmr : ℚ
  deriving DecidableEq

/-- The object literal returned by `analysisResults` (page.tsx:604-624). -/
structure AnalysisResult where
  startDate : Int
  endDate : Int
  daysBetween : Int
  startWeight : ℚ
  endWeight : ℚ
  weightChange : ℚ
  startBodyFat : ℚ
  endBodyFat : ℚ
  bodyFatChange : ℚ
  averageWeightLossPerWeek : ℚ
  bmiChange : ℚ
  visceralFatChange : ℚ
  muscleMassChange : ℚ
  fatMassLost : ℚ
  leanMassChange : ℚ
  waterRateChange : ℚ
  weightLossRate : ℚ
  bodyFatLossRate : ℚ
  successRate : ℚ
  deriving DecidableEq

/-- `+x.toFixed(1)`: round to one decimal, ties toward +∞. -/
def round1 (x : ℚ) : ℚ := (⌊x * 10 + 1 / 2⌋ : ℚ) / 10

/-- `+x.toFixed(2)`: round to two decimals, ties toward +∞. -/
def round2 (x : ℚ) : ℚ := (⌊x * 100 + 1 / 2⌋ : ℚ) / 100

/-- `1000 * 60 * 60 * 24` (page.tsx:573). -/
def msPerDay : Int := 1000 * 60 * 60 * 24

/-- `record.weight * record.bodyFat / 100` (page.tsx:581-582). -/
def fatMass (r : WeightRecord) : ℚ := r.weight * r.bodyFat / 100

/-- `fatMassLost = fatMassStart - fatMassEnd` (page.tsx:583). -/
def fatMassLostOf (f l : WeightRecord) : ℚ := fatMass f - fatMass l

/-- `leanMassChange = leanMassEnd - leanMassStart` (page.tsx:586-588). -/
def leanMassChangeOf (f l : WeightRecord) : ℚ :=
  (l.weight - fatMass l) - (f.weight - fatMass f)

/-- `Math.floor((last - first) / msPerDay)` (page.tsx:572-574): floor division
on millisecond timestamps. -/
def daysBetweenOf (f l : WeightRecord) : Int := (l.date - f.date).fdiv msPerDay

/-- `daysBetween / 7 || 1` (page.tsx:577): real division, with the divisor
replaced by `1` exactly when `daysBetween / 7` is `0`. -/
def weeksOf (d : Int) : ℚ := if d = 0 then 1 else (d : ℚ) / 7

/-- `weeklyWeightLoss` (page.tsx:578). -/
def weeklyLossOf (f l : WeightRecord) : ℚ :=
  (f.weight - l.weight) / weeksOf (daysBetweenOf f l)

/-- First summand of the success score (page.tsx:593,599): full `33.3` inside
the ideal band, otherwise the linear penalty floored at `0`. -/
def paceScore (w : ℚ) : ℚ :=
  if 0.5 ≤ w ∧ w ≤ 1 then 33.3 else max 0 (33.3 - |w - 0.75| * 10)

/-- Second summand (page.tsx:594,600): binary on `fatMassLost > 0`. -/
def fatLossScore (fl : ℚ) : ℚ := if 0 < fl then 33.3 else 0

/-- Third summand (page.tsx:595,601): binary on `leanMassChange >= 0`. -/
def muscleScore (lc : ℚ) : ℚ := if 0 ≤ lc then 33.4 else 0

/-- The returned object (page.tsx:604-624), as a function of the two endpoint
records.  Note `visceralFatChange` (line 616) is the raw difference with no
`toFixed` call, unlike every other change field. -/
def mkResult (firstRecord lastRecord : WeightRecord) : AnalysisResult :=
  let daysBetween := daysBetweenOf firstRecord lastRecord
  let weeklyWeightLoss := weeklyLossOf firstRecord lastRecord
  let fatMassLost := fatMassLostOf firstRecord lastRecord
  let leanMassChange := leanMassChangeOf firstRecord lastRecord
  let successRate :=
    paceScore weeklyWeightLoss + fatLossScore fatMassLost + muscleScore leanMassChange
  { startDate := firstRecord.date
    endDate := lastRecord.date
    daysBetween := daysBetween
    startWeight := firstRecord.weight
    endWeight := lastRecord.weight
    weightChange := round1 (firstRecord.weight - lastRecord.weight)
    startBodyFat := firstRecord.bodyFat
    endBodyFat := lastRecord.bodyFat
    bodyFatChange := round1 (firstRecord.bodyFat - lastRecord.bodyFat)
    averageWeightLossPerWeek := round2 weeklyWeightLoss
    bmiChange := round1 (firstRecord.bmi - lastRecord.bmi)
    visceralFatChange := firstRecord.visceralFat - lastRecord.visceralFat
    muscleMassChange := round1 (lastRecord.muscleMass - firstRecord.muscleMass)
    fatMassLost := round1 fatMassLost
    leanMassChange := round1 leanMassChange
    waterRateChange := round1 (lastRecord.waterRate - firstRecord.waterRate)
    weightLossRate :=
      round1 ((firstRecord.weight - lastRecord.weight) / firstRecord.weight * 100)
    bodyFatLossRate :=
      round1 ((firstRecord.bodyFat - lastRecord.bodyFat) / firstRecord.bodyFat * 100)
    successRate := round1 successRate }

/-- `[...weightRecords].sort((a, b) => dateMs(a) - dateMs(b))` (page.tsx:555-557):
stable ascending sort by date. -/
def sortByDate (records : List WeightRecord) : List WeightRecord :=
  List.insertionSort (fun a b => a.date ≤ b.date) records

/-- The sorted-then-filtered working list (page.tsx:555-564): when a start date
is given, keep records with `new Date(record.date) >= startDate`. -/
def filteredOf (records : List WeightRecord) (startDate : Option Int) :
    List WeightRecord :=
  match startDate with
  | some s => (sortByDate records).filter fun record => s ≤ record.date
  | none => sortByDate records

/-- The analytics core `analysisResults` (page.tsx:552-625): `none` when the
input list is empty or the filter leaves nothing, otherwise the result derived
from `filteredRecords[0]` and `filteredRecords[filteredRecords.length - 1]`.
The function is total: no exception path exists. -/
def analyze (records : List WeightRecord) (startDate : Option Int) :
    Option AnalysisResult :=
  if records.length = 0 then none
  else
    match (filteredOf records startDate).head?, (filteredOf records startDate).getLast? with
    | some firstRecord, some lastRecord => some (mkResult firstRecord lastRecord)
    | _, _ => none

/-! ### Concrete records used to instantiate the theorems -/

/-- A generic sample record (the first seeded row of the page state). -/
def recW : WeightRecord :=
  { id := 1, date := 1000, bmi := 27.5, weight := 90, bodyFat := 36,
    visceralFat := 10, waterRate := 55, muscleMass := 40, boneMineral := 3.2,
    bmr := 1500 }

/-- First record of the spec's concrete scenario: 2024-01-01, 90 kg, 36 %. -/
def jan1Record : WeightRecord :=
  { id := 1, date := 1704067200000, bmi := 27.5, weight := 90, bodyFat := 36,
    visceralFat := 10, waterRate := 55, muscleMass := 40, boneMineral := 3.2,
    bmr := 1500 }

/-- Last record of the spec's concrete scenario: 2024-01-15, 85 kg, 34 %. -/
def jan15Record : WeightRecord :=
  { id := 2, date := 1705276800000, bmi := 26.8, weight := 85, bodyFat := 34,
    visceralFat := 9, waterRate := 56, muscleMass := 41, boneMineral := 3.3,
    bmr := 1480 }

/-- A concrete pair endpoint: 80 kg, 30 % body fat, day 0. -/
def wrA : WeightRecord :=
  { id := 1, date := 0, bmi := 27, weight := 80, bodyFat := 30,
    visceralFat := 10, waterRate := 55, muscleMass := 40, boneMineral := 3,
    bmr := 1500 }

/-- A concrete pair endpoint: 78.5 kg, 25 % body fat, 14 days after `wrA`, so
the weekly loss from `wrA` is exactly 0.75 kg/week with fat lost and lean
mass gained. -/
def wrB : WeightRecord :=
  { id := 2, date := 1209600000, bmi := 26, weight := 78.5, bodyFat := 25,
    visceralFat := 9, waterRate := 56, muscleMass := 41, boneMineral := 3,
    bmr := 1480 }

/-- A record with a visceral-fat level of 10.25, day 0. -/
def vrA : WeightRecord :=
  { id := 1, date := 0, bmi := 27, weight := 90, bodyFat := 36,
    visceralFat := 10.25, waterRate := 55, muscleMass := 40, boneMineral := 3,
    bmr := 1500 }

/-- A record one day after `vrA` with visceral fat 10. -/
def vrB : WeightRecord :=
  { id := 2, date := 86400000, bmi := 26, weight := 89, bodyFat := 35,
    visceralFat := 10, waterRate := 56, muscleMass := 41, boneMineral := 3,
    bmr := 1480 }

/-- A record (weight 90) sharing its date with `sdB`. -/
def sdA : WeightRecord :=
  { id := 1, date := 100, bmi := 27, weight := 90, bodyFat := 36,
    visceralFat := 10, waterRate := 55, muscleMass := 40, boneMineral := 3,
    bmr := 1500 }

/-- A record (weight 85) sharing its date with `sdA`. -/
def sdB : WeightRecord :=
  { id := 2, date := 100, bmi := 26, weight := 85, bodyFat := 34,
    visceralFat := 9, waterRate := 56, muscleMass := 41, boneMineral := 3,
    bmr := 1480 }

/-- A record at date 100 for distinct-date permutation instances. -/
def pdA : WeightRecord :=
  { id := 1, date := 100, bmi := 27, weight := 90, bodyFat := 36,
    visceralFat := 10, waterRate := 55, muscleMass := 40, boneMineral := 3,
    bmr := 1500 }

/-- A record at date 200 for distinct-date permutation instances. -/
def pdB : WeightRecord :=
  { id := 2, date := 200, bmi := 26, weight := 85, bodyFat := 34,
    visceralFat := 9, waterRate := 56, muscleMass := 41, boneMineral := 3,
    bmr := 1480 }

/-- A record whose weight 90.04 lies within rounding distance of 90. -/
def cxA : WeightRecord :=
  { id := 1, date := 0, bmi := 27, weight := 90.04, bodyFat := 36,
    visceralFat := 10, waterRate := 55, muscleMass := 40, boneMineral := 3,
    bmr := 1500 }

/-- A record one day after `cxA`: weight 90 (a genuine decrease of 0.04 kg),
muscle mass 41 (an increase over `cxA`). -/
def cxB : WeightRecord :=
  { id := 2, date := 86400000, bmi := 26, weight := 90, bodyFat := 35,
    visceralFat := 9, waterRate := 56, muscleMass := 41, boneMineral := 3,
    bmr := 1480 }

/-- A middle record one day after `wrA`, wildly different from the endpoints
around it. -/
def wpM : WeightRecord :=
  { id := 3, date := 86400000, bmi := 40, weight := 150, bodyFat := 60,
    visceralFat := 30, waterRate := 20, muscleMass := 10, boneMineral := 1,
    bmr := 900 }

/-- An endpoint record two days after `wrA`. -/
def wpB : WeightRecord :=
  { id := 2, date := 172800000, bmi := 26, weight := 85, bodyFat := 34,
    visceralFat := 9, waterRate := 56, muscleMass := 41, boneMineral := 3,
    bmr := 1480 }

end TCMFBT

namespace TCMFBT

/-! ### Projection lemmas for the result object -/

@[simp] theorem mkResult_startDate (f l : WeightRecord) :
    (mkResult f l).startDate = f.date := rfl

@[simp] theorem mkResult_endDate (f l : WeightRecord) :
    (mkResult f l).endDate = l.date := rfl

@[simp] theorem mkResult_daysBetween (f l : WeightRecord) :
    (mkResult f l).daysBetween = daysBetweenOf f l := rfl

@[simp] theorem mkResult_startWeight (f l : WeightRecord) :
    (mkResult f l).startWeight = f.weight := rfl

@[simp] theorem mkResult_endWeight (f l : WeightRecord) :
    (mkResult f l).endWeight = l.weight := rfl

@[simp] theorem mkResult_startBodyFat (f l : WeightRecord) :
    (mkResult f l).startBodyFat = f.bodyFat := rfl

@[simp] theorem mkResult_endBodyFat (f l : WeightRecord) :
    (mkResult f l).endBodyFat = l.bodyFat := rfl

@[simp] theorem mkResult_weightChange (f l : WeightRecord) :
    (mkResult f l).weightChange = round1 (f.weight - l.weight) := rfl

@[simp] theorem mkResult_bodyFatChange (f l : WeightRecord) :
    (mkResult f l).bodyFatChange = round1 (f.bodyFat - l.bodyFat) := rfl

@[simp] theorem mkResult_averageWeightLossPerWeek (f l : WeightRecord) :
    (mkResult f l).averageWeightLossPerWeek = round2 (weeklyLossOf f l) := rfl

@[simp] theorem mkResult_bmiChange (f l : WeightRecord) :
    (mkResult f l).bmiChange = round1 (f.bmi - l.bmi) := rfl

@[simp] theorem mkResult_visceralFatChange (f l : WeightRecord) :
    (mkResult f l).visceralFatChange = f.visceralFat - l.visceralFat := rfl

@[simp] theorem mkResult_muscleMassChange (f l : WeightRecord) :
    (mkResult f l).muscleMassChange = round1 (l.muscleMass - f.muscleMass) := rfl

@[simp] theorem mkResult_fatMassLost (f l : WeightRecord) :
    (mkResult f l).fatMassLost = round1 (fatMassLostOf f l) := rfl

@[simp] theorem mkResult_leanMassChange (f l : WeightRecord) :
    (mkResult f l).leanMassChange = round1 (leanMassChangeOf f l) := rfl

@[simp] theorem mkResult_waterRateChange (f l : WeightRecord) :
    (mkResult f l).waterRateChange = round1 (l.waterRate - f.waterRate) := rfl

@[simp] theorem mkResult_weightLossRate (f l : WeightRecord) :
    (mkResult f l).weightLossRate =
      round1 ((f.weight - l.weight) / f.weight * 100) := rfl

@[simp] theorem mkResult_bodyFatLossRate (f l : WeightRecord) :
    (mkResult f l).bodyFatLossRate =
      round1 ((f.bodyFat - l.bodyFat) / f.bodyFat * 100) := rfl

@[simp] theorem mkResult_successRate (f l : WeightRecord) :
    (mkResult f l).successRate =
      round1 (paceScore (weeklyLossOf f l) + fatLossScore (fatMassLostOf f l)
        + muscleScore (leanMassChangeOf f l)) := rfl

/-! ### Rounding lemmas -/

theorem round1_mono {x y : ℚ} (h : x ≤ y) : round1 x ≤ round1 y := by
  unfold round1
  have hf : (⌊x * 10 + 1 / 2⌋ : ℤ) ≤ ⌊y * 10 + 1 / 2⌋ :=
    Int.floor_le_floor (by linarith)
  have hq : ((⌊x * 10 + 1 / 2⌋ : ℤ) : ℚ) ≤ ((⌊y * 10 + 1 / 2⌋ : ℤ) : ℚ) :=
    Int.cast_le.mpr hf
  linarith

theorem round1_hundred : round1 100 = 100 := by norm_num [round1]

theorem round1_zero : round1 0 = 0 := by norm_num [round1]

theorem round2_zero : round2 0 = 0 := by norm_num [round2]

theorem round1_nonneg {x : ℚ} (h : 0 ≤ x) : 0 ≤ round1 x := by
  unfold round1
  have hf : (0 : ℤ) ≤ ⌊x * 10 + 1 / 2⌋ := Int.floor_nonneg.mpr (by linarith)
  have hq : (0 : ℚ) ≤ ((⌊x * 10 + 1 / 2⌋ : ℤ) : ℚ) := Int.cast_nonneg.mpr hf
  linarith

/-! ### Bounds on the three score components -/

theorem paceScore_le (w : ℚ) : paceScore w ≤ 33.3 := by
  unfold paceScore
  split
  · exact le_refl _
  · have h0 : (0 : ℚ) ≤ |w - 0.75| * 10 :=
      mul_nonneg (abs_nonneg _) (by norm_num)
    exact max_le (by norm_num) (by linarith)

theorem fatLossScore_le (x : ℚ) : fatLossScore x ≤ 33.3 := by
  unfold fatLossScore ; split <;> norm_num

theorem muscleScore_le (x : ℚ) : muscleScore x ≤ 33.4 := by
  unfold muscleScore ; split <;> norm_num

/-! ### Shape of the analysis function -/

theorem analyze_eq (records : List WeightRecord) (s : Option Int) :
    analyze records s =
      match (filteredOf records s).head?, (filteredOf records s).getLast? with
      | some f, some l => some (mkResult f l)
      | _, _ => none := by
  rw [analyze]
  split
  · next h =>
    have hnil : records = [] := List.length_eq_zero.mp h
    subst hnil
    cases s <;> rfl
  · rfl

theorem analyze_some {records : List WeightRecord} {s : Option Int}
    {r : AnalysisResult} (h : analyze records s = some r) :
    ∃ f l, (filteredOf records s).head? = some f ∧
      (filteredOf records s).getLast? = some l ∧ r = mkResult f l := by
  rw [analyze_eq] at h
  cases hf : (filteredOf records s).head? with
  | none => rw [hf] at h ; simp at h
  | some f =>
    cases hl : (filteredOf records s).getLast? with
    | none => rw [hf, hl] at h ; simp at h
    | some l =>
      rw [hf, hl] at h
      simp only [Option.some.injEq] at h
      exact ⟨f, l, rfl, rfl, h.symm⟩

/-! ### Concrete evaluation helpers -/

theorem sortByDate_single (a : WeightRecord) : sortByDate [a] = [a] := rfl

theorem sortByDate_pair {a b : WeightRecord} (h : a.date ≤ b.date) :
    sortByDate [a, b] = [a, b] := by
  simp [sortByDate, List.insertionSort, List.orderedInsert, h]

theorem analyze_single (a : WeightRecord) :
    analyze [a] none = some (mkResult a a) := by
  simp [analyze, filteredOf, sortByDate_single]

theorem sortByDate_triple {a b c : WeightRecord} (h1 : a.date ≤ b.date)
    (h2 : b.date ≤ c.date) : sortByDate [a, b, c] = [a, b, c] := by
  simp [sortByDate, List.insertionSort, List.orderedInsert, h1, h2, le_trans h1 h2]

theorem analyze_pair {a b : WeightRecord} (h : a.date ≤ b.date) :
    analyze [a, b] none = some (mkResult a b) := by
  simp [analyze, filteredOf, sortByDate_pair h]

/-! ### Sorting machinery for permutation invariance -/

theorem sortByDate_sorted (l : List WeightRecord) :
    (sortByDate l).Sorted (fun a b => a.date ≤ b.date) := by
  haveI : IsTotal WeightRecord (fun a b => a.date ≤ b.date) :=
    ⟨fun a b => Int.le_total a.date b.date⟩
  haveI : IsTrans WeightRecord (fun a b => a.date ≤ b.date) :=
    ⟨fun _ _ _ hab hbc => le_trans hab hbc⟩
  exact List.sorted_insertionSort _ l

theorem sortByDate_perm (l : List WeightRecord) : (sortByDate l).Perm l :=
  List.perm_insertionSort _ l

theorem sortByDate_eq_of_perm {l1 l2 : List WeightRecord}
    (hp : l1.Perm l2) (hd : (l1.map WeightRecord.date).Nodup) :
    sortByDate l1 = sortByDate l2 := by
  haveI : IsAntisymm WeightRecord (fun a b => a.date < b.date) :=
    ⟨fun a b h1 h2 => absurd (lt_trans h1 h2) (lt_irrefl _)⟩
  have hp12 : (sortByDate l1).Perm (sortByDate l2) :=
    (sortByDate_perm l1).trans (hp.trans (sortByDate_perm l2).symm)
  have hd2 : (l2.map WeightRecord.date).Nodup := ((hp.map _).nodup_iff).mp hd
  have strict : ∀ (l : List WeightRecord), (l.map WeightRecord.date).Nodup →
      (sortByDate l).Sorted (fun a b => a.date ≤ b.date) →
      (sortByDate l).Pairwise (fun a b => a.date < b.date) := by
    intro l hnd hs
    have hnd2 : ((sortByDate l).map WeightRecord.date).Nodup :=
      (((sortByDate_perm l).map _).nodup_iff).mpr hnd
    have hne : (sortByDate l).Pairwise (fun a b => a.date ≠ b.date) := by
      rwa [List.Nodup, List.pairwise_map] at hnd2
    exact (hs.and hne).imp fun hab => lt_of_le_of_ne hab.1 hab.2
  exact List.eq_of_perm_of_sorted hp12
    (strict l1 hd (sortByDate_sorted l1)) (strict l2 hd2 (sortByDate_sorted l2))

theorem filteredOf_congr {l1 l2 : List WeightRecord} (s : Option Int)
    (h : sortByDate l1 = sortByDate l2) : filteredOf l1 s = filteredOf l2 s := by
  cases s <;> simp [filteredOf, h]

end TCMFBT

namespace TCMFBT

/-! ### C10 -/

/-- C10: before the final per-field rounding the total weight delta decomposes
exactly into its body-composition parts: for all records,
`firstRecord.weight - lastRecord.weight = fatMassLost - leanMassChange`;
the result object carries the one-decimal roundings of those two quantities. -/
theorem weight_decomposition (f l : WeightRecord) :
    fatMassLostOf f l - leanMassChangeOf f l = f.weight - l.weight
    ∧ (mkResult f l).fatMassLost = round1 (fatMassLostOf f l)
    ∧ (mkResult f l).leanMassChange = round1 (leanMassChangeOf f l) := by
  refine ⟨?_, rfl, rfl⟩
  unfold fatMassLostOf leanMassChangeOf fatMass
  ring

/-! ### C7 -/

/-- C7: the spec's concrete scenario.  For the two-record input with first
record 2024-01-01 (weight 90, bodyFat 36) and last record 2024-01-15
(weight 85, bodyFat 34) and no filter, `analyze` returns a result with
`daysBetween = 14`, weekly loss `2.5` kg/week (pace score `15.8`),
`fatMassLost = 3.5` (fat score `33.3`), `leanMassChange = -1.5`
(muscle score `0`) and `successRate = 49.1`. -/
theorem concrete_scenario_jan2024 :
    analyze [jan1Record, jan15Record] none = some (mkResult jan1Record jan15Record)
    ∧ (mkResult jan1Record jan15Record).daysBetween = 14
    ∧ weeklyLossOf jan1Record jan15Record = 2.5
    ∧ (mkResult jan1Record jan15Record).averageWeightLossPerWeek = 2.5
    ∧ paceScore 2.5 = 15.8
    ∧ fatMassLostOf jan1Record jan15Record = 3.5
    ∧ (mkResult jan1Record jan15Record).fatMassLost = 3.5
    ∧ fatLossScore 3.5 = 33.3
    ∧ leanMassChangeOf jan1Record jan15Record = -1.5
    ∧ (mkResult jan1Record jan15Record).leanMassChange = -1.5
    ∧ muscleScore (-1.5) = 0
    ∧ (mkResult jan1Record jan15Record).successRate = 49.1 := by
  have hd : daysBetweenOf jan1Record jan15Record = 14 := by decide
  have h1 : weeklyLossOf jan1Record jan15Record = 2.5 := by
    rw [weeklyLossOf, hd]
    norm_num [weeksOf, jan1Record, jan15Record]
  have h2 : fatMassLostOf jan1Record jan15Record = 3.5 := by
    norm_num [fatMassLostOf, fatMass, jan1Record, jan15Record]
  have h3 : leanMassChangeOf jan1Record jan15Record = -1.5 := by
    norm_num [leanMassChangeOf, fatMass, jan1Record, jan15Record]
  have p1 : paceScore 2.5 = 15.8 := by
    rw [paceScore, if_neg (by norm_num)]
    rw [show |(2.5 : ℚ) - 0.75| = 1.75 from by rw [abs_of_pos] <;> norm_num]
    rw [show max (0 : ℚ) (33.3 - 1.75 * 10) = 15.8 from by
      rw [max_eq_right] <;> norm_num]
  have p2 : fatLossScore 3.5 = 33.3 := by rw [fatLossScore, if_pos] ; norm_num
  have p3 : muscleScore (-1.5) = 0 := by rw [muscleScore, if_neg] ; norm_num
  refine ⟨analyze_pair (by decide), by rw [mkResult_daysBetween, hd], h1, ?_, p1,
    h2, ?_, p2, h3, ?_, p3, ?_⟩
  · rw [mkResult_averageWeightLossPerWeek, h1] ; norm_num [round2]
  · rw [mkResult_fatMassLost, h2] ; norm_num [round1]
  · rw [mkResult_leanMassChange, h3] ; norm_num [round1]
  · rw [mkResult_successRate, h1, h2, h3, p1, p2, p3] ; norm_num [round1]

/-! ### C2 -/

/-- C2: for every filter, `analyze` on the empty list returns `none`, and for
every record list and start date excluding all records (every record date is
strictly below the start date) `analyze` returns `none`.  The embedded
function is total, so no exception path exists: the absent result is the sole
failure signal. -/
theorem analyze_empty_input (s : Option Int) (records : List WeightRecord)
    (d : Int) (h : ∀ r ∈ records, r.date < d) :
    analyze [] s = none ∧ analyze records (some d) = none := by
  constructor
  · rw [analyze_eq] ; cases s <;> rfl
  · rw [analyze_eq]
    have hnil : filteredOf records (some d) = [] := by
      simp only [filteredOf]
      refine List.filter_eq_nil_iff.mpr ?_
      intro a ha
      have hmem : a ∈ records := (List.mem_insertionSort _).mp ha
      simpa using not_le.mpr (h a hmem)
    rw [hnil]
    rfl

/-- Witness for C2 at a concrete input: the empty list with filter `0`, and a
one-record list whose single date lies strictly before the start date. -/
theorem analyze_empty_input_app :
    analyze [] (some 0) = none ∧ analyze [recW] (some 2000) = none :=
  analyze_empty_input (some 0) [recW] 2000 (by decide)

/-! ### C3 -/

/-- C3: in every non-`none` result the weekly-loss divisor is `1` when
`daysBetween = 0` (single-record and same-day cases report the raw delta,
rounded to two decimals), is `daysBetween / 7` otherwise, and is never zero. -/
theorem analyze_weekly_divisor (records : List WeightRecord) (s : Option Int)
    (r : AnalysisResult) (h : analyze records s = some r) :
    r.averageWeightLossPerWeek =
      round2 ((r.startWeight - r.endWeight) / weeksOf r.daysBetween)
    ∧ (r.daysBetween = 0 → weeksOf r.daysBetween = 1
        ∧ r.averageWeightLossPerWeek = round2 (r.startWeight - r.endWeight))
    ∧ (r.daysBetween ≠ 0 → weeksOf r.daysBetween = (r.daysBetween : ℚ) / 7)
    ∧ weeksOf r.daysBetween ≠ 0 := by
  obtain ⟨f, l, hf, hl, rfl⟩ := analyze_some h
  refine ⟨rfl, ?_, ?_, ?_⟩
  · intro hz
    rw [mkResult_daysBetween] at hz
    have hw : weeksOf (daysBetweenOf f l) = 1 := by rw [weeksOf, if_pos hz]
    refine ⟨by rw [mkResult_daysBetween, hw], ?_⟩
    rw [mkResult_averageWeightLossPerWeek, mkResult_startWeight, mkResult_endWeight,
      weeklyLossOf, hw, div_one]
  · intro hz
    rw [mkResult_daysBetween] at hz ⊢
    rw [weeksOf, if_neg hz]
  · rw [mkResult_daysBetween]
    by_cases hz : daysBetweenOf f l = 0
    · rw [weeksOf, if_pos hz] ; norm_num
    · rw [weeksOf, if_neg hz]
      exact div_ne_zero (Int.cast_ne_zero.mpr hz) (by norm_num)

/-- Witness for C3 at a concrete input: the single-record series, whose day
span is zero, reports the raw (two-decimal-rounded) weight delta and a
nonzero divisor. -/
theorem analyze_weekly_divisor_app :
    weeksOf (mkResult recW recW).daysBetween = 1
    ∧ (mkResult recW recW).averageWeightLossPerWeek =
        round2 ((mkResult recW recW).startWeight - (mkResult recW recW).endWeight)
    ∧ weeksOf (mkResult recW recW).daysBetween ≠ 0 := by
  have h := analyze_weekly_divisor [recW] none (mkResult recW recW) (analyze_single recW)
  have hz : (mkResult recW recW).daysBetween = 0 := by
    rw [mkResult_daysBetween, daysBetweenOf, sub_self]
    exact Int.zero_fdiv _
  exact ⟨(h.2.1 hz).1, (h.2.1 hz).2, h.2.2.2⟩

/-! ### C8 -/

/-- C8: for every single record with positive weight and body-fat percentage
(the data-model invariants; they keep the percentage metrics well defined in
the source's floating-point arithmetic as well), `analyze [r] none` returns a
result with zero day span, all change fields zero, zero loss rates, fat score
`0`, muscle score `33.4`, pace score `25.8` at zero weekly loss, and success
rate `59.2`. -/
theorem analyze_single_record (a : WeightRecord) (_hw : 0 < a.weight)
    (_hb : 0 < a.bodyFat) :
    analyze [a] none = some (mkResult a a)
    ∧ (mkResult a a).daysBetween = 0
    ∧ (mkResult a a).weightChange = 0
    ∧ (mkResult a a).bodyFatChange = 0
    ∧ (mkResult a a).bmiChange = 0
    ∧ (mkResult a a).visceralFatChange = 0
    ∧ (mkResult a a).muscleMassChange = 0
    ∧ (mkResult a a).fatMassLost = 0
    ∧ (mkResult a a).leanMassChange = 0
    ∧ (mkResult a a).waterRateChange = 0
    ∧ (mkResult a a).averageWeightLossPerWeek = 0
    ∧ (mkResult a a).weightLossRate = 0
    ∧ (mkResult a a).bodyFatLossRate = 0
    ∧ weeklyLossOf a a = 0
    ∧ paceScore 0 = 25.8
    ∧ fatLossScore 0 = 0
    ∧ muscleScore 0 = 33.4
    ∧ (mkResult a a).successRate = 59.2 := by
  have hz : daysBetweenOf a a = 0 := by
    rw [daysBetweenOf, sub_self] ; exact Int.zero_fdiv _
  have hwl : weeklyLossOf a a = 0 := by rw [weeklyLossOf, sub_self, zero_div]
  have hfm : fatMassLostOf a a = 0 := by rw [fatMassLostOf, sub_self]
  have hlm : leanMassChangeOf a a = 0 := by rw [leanMassChangeOf, sub_self]
  have p1 : paceScore 0 = 25.8 := by
    rw [paceScore, if_neg (by norm_num)]
    rw [show |(0 : ℚ) - 0.75| = 0.75 from by
      rw [zero_sub, abs_neg, abs_of_pos] ; norm_num]
    rw [show max (0 : ℚ) (33.3 - 0.75 * 10) = 25.8 from by
      rw [max_eq_right] <;> norm_num]
  have p2 : fatLossScore 0 = 0 := by rw [fatLossScore, if_neg] ; norm_num
  have p3 : muscleScore 0 = 33.4 := by rw [muscleScore, if_pos] ; norm_num
  refine ⟨analyze_single a, by rw [mkResult_daysBetween, hz], ?_, ?_, ?_, ?_, ?_,
    ?_, ?_, ?_, ?_, ?_, ?_, hwl, p1, p2, p3, ?_⟩
  · rw [mkResult_weightChange, sub_self, round1_zero]
  · rw [mkResult_bodyFatChange, sub_self, round1_zero]
  · rw [mkResult_bmiChange, sub_self, round1_zero]
  · rw [mkResult_visceralFatChange, sub_self]
  · rw [mkResult_muscleMassChange, sub_self, round1_zero]
  · rw [mkResult_fatMassLost, hfm, round1_zero]
  · rw [mkResult_leanMassChange, hlm, round1_zero]
  · rw [mkResult_waterRateChange, sub_self, round1_zero]
  · rw [mkResult_averageWeightLossPerWeek, hwl, round2_zero]
  · rw [mkResult_weightLossRate, sub_self, zero_div, zero_mul, round1_zero]
  · rw [mkResult_bodyFatLossRate, sub_self, zero_div, zero_mul, round1_zero]
  · rw [mkResult_successRate, hwl, hfm, hlm, p1, p2, p3]
    norm_num [round1]

/-- Witness for C8 at a concrete record with positive weight and body fat. -/
theorem analyze_single_record_app :
    analyze [recW] none = some (mkResult recW recW)
    ∧ (mkResult recW recW).successRate = 59.2 := by
  have h := analyze_single_record recW (by norm_num [recW]) (by norm_num [recW])
  exact ⟨h.1, h.2.2.2.2.2.2.2.2.2.2.2.2.2.2.2.2.2⟩

end TCMFBT

namespace TCMFBT

/-! ### C1 -/

/-- C1: in every non-`none` result, `successRate` is the one-decimal rounding
of `paceScore + fatLossScore + muscleScore`, where the pace score is `33.3`
inside the band `0.5 ≤ weeklyWeightLoss ≤ 1.0` and otherwise
`max 0 (33.3 - |weeklyWeightLoss - 0.75| * 10)`, the fat score is `33.3` iff
`fatMassLost > 0`, and the muscle score is `33.4` iff `leanMassChange ≥ 0`;
the success rate never exceeds `100.0`, and it is exactly `100.0` whenever the
weekly loss is exactly `0.75` with positive fat loss and nonnegative lean-mass
change.  The weekly loss, fat-mass loss and lean-mass change are reconstructed
from the unrounded `startWeight`, `endWeight`, `startBodyFat`, `endBodyFat`
and `daysBetween` fields of the result. -/
theorem analyze_successRate_spec (records : List WeightRecord) (s : Option Int)
    (r : AnalysisResult) (h : analyze records s = some r) :
    r.successRate =
      round1 (paceScore ((r.startWeight - r.endWeight) / weeksOf r.daysBetween)
        + fatLossScore (r.startWeight * r.startBodyFat / 100
            - r.endWeight * r.endBodyFat / 100)
        + muscleScore ((r.endWeight - r.endWeight * r.endBodyFat / 100)
            - (r.startWeight - r.startWeight * r.startBodyFat / 100)))
    ∧ r.successRate ≤ 100
    ∧ ((r.startWeight - r.endWeight) / weeksOf r.daysBetween = 0.75
        ∧ 0 < r.startWeight * r.startBodyFat / 100 - r.endWeight * r.endBodyFat / 100
        ∧ 0 ≤ (r.endWeight - r.endWeight * r.endBodyFat / 100)
            - (r.startWeight - r.startWeight * r.startBodyFat / 100)
        → r.successRate = 100) := by
  obtain ⟨f, l, hf, hl, rfl⟩ := analyze_some h
  refine ⟨rfl, ?_, ?_⟩
  · rw [mkResult_successRate]
    have h1 := paceScore_le (weeklyLossOf f l)
    have h2 := fatLossScore_le (fatMassLostOf f l)
    have h3 := muscleScore_le (leanMassChangeOf f l)
    calc round1 (paceScore (weeklyLossOf f l) + fatLossScore (fatMassLostOf f l)
          + muscleScore (leanMassChangeOf f l))
        ≤ round1 100 := round1_mono (by linarith)
      _ = 100 := round1_hundred
  · rintro ⟨hw, hfat, hlean⟩
    have hw2 : weeklyLossOf f l = 0.75 := hw
    have hfat2 : 0 < fatMassLostOf f l := hfat
    have hlean2 : 0 ≤ leanMassChangeOf f l := hlean
    rw [mkResult_successRate, hw2]
    rw [paceScore, if_pos (by norm_num)]
    rw [fatLossScore, if_pos hfat2]
    rw [muscleScore, if_pos hlean2]
    norm_num [round1]

/-- Witness for C1: a concrete pair meeting all three sub-criteria reaches the
ceiling `successRate = 100`. -/
theorem analyze_successRate_spec_app :
    analyze [wrA, wrB] none = some (mkResult wrA wrB)
    ∧ (mkResult wrA wrB).successRate = 100 := by
  have hpair : analyze [wrA, wrB] none = some (mkResult wrA wrB) :=
    analyze_pair (by decide)
  have h := analyze_successRate_spec [wrA, wrB] none (mkResult wrA wrB) hpair
  refine ⟨hpair, h.2.2 ⟨?_, ?_, ?_⟩⟩
  · rw [mkResult_startWeight, mkResult_endWeight, mkResult_daysBetween,
      show daysBetweenOf wrA wrB = 14 from by decide]
    norm_num [weeksOf, wrA, wrB]
  · rw [mkResult_startWeight, mkResult_endWeight, mkResult_startBodyFat,
      mkResult_endBodyFat]
    norm_num [wrA, wrB]
  · rw [mkResult_startWeight, mkResult_endWeight, mkResult_startBodyFat,
      mkResult_endBodyFat]
    norm_num [wrA, wrB]

/-! ### C4 -/

/-- Counterexample to C4 as stated: in the result for this concrete input the
field `visceralFatChange` is `0.25`, which is not a one-decimal value — the
source (page.tsx:616) subtracts the visceral-fat levels without any `toFixed`
call, so this derived decimal metric is not rounded to one decimal place. -/
theorem visceralFat_not_rounded_cex :
    analyze [vrA, vrB] none = some (mkResult vrA vrB)
    ∧ (mkResult vrA vrB).visceralFatChange = 0.25
    ∧ round1 ((mkResult vrA vrB).visceralFatChange) ≠
        (mkResult vrA vrB).visceralFatChange := by
  have h2 : (mkResult vrA vrB).visceralFatChange = 0.25 := by
    rw [mkResult_visceralFatChange] ; norm_num [vrA, vrB]
  refine ⟨analyze_pair (by decide), h2, ?_⟩
  rw [h2]
  norm_num [round1]

/-- C4 amended: in every non-`none` result, with `f` and `l` the endpoints of
the filtered series, every derived decimal metric is rounded to one decimal
place, except `averageWeightLossPerWeek` (two decimals) and
`visceralFatChange`, which is the exact unrounded difference. -/
theorem analyze_rounding_amended (records : List WeightRecord) (s : Option Int)
    (f l : WeightRecord) (r : AnalysisResult)
    (hf : (filteredOf records s).head? = some f)
    (hl : (filteredOf records s).getLast? = some l)
    (h : analyze records s = some r) :
    r = mkResult f l
    ∧ r.weightChange = round1 (f.weight - l.weight)
    ∧ r.bodyFatChange = round1 (f.bodyFat - l.bodyFat)
    ∧ r.bmiChange = round1 (f.bmi - l.bmi)
    ∧ r.muscleMassChange = round1 (l.muscleMass - f.muscleMass)
    ∧ r.fatMassLost = round1 (fatMassLostOf f l)
    ∧ r.leanMassChange = round1 (leanMassChangeOf f l)
    ∧ r.waterRateChange = round1 (l.waterRate - f.waterRate)
    ∧ r.weightLossRate = round1 ((f.weight - l.weight) / f.weight * 100)
    ∧ r.bodyFatLossRate = round1 ((f.bodyFat - l.bodyFat) / f.bodyFat * 100)
    ∧ r.successRate = round1 (paceScore (weeklyLossOf f l)
        + fatLossScore (fatMassLostOf f l) + muscleScore (leanMassChangeOf f l))
    ∧ r.averageWeightLossPerWeek = round2 (weeklyLossOf f l)
    ∧ r.visceralFatChange = f.visceralFat - l.visceralFat := by
  obtain ⟨f', l', hf', hl', rfl⟩ := analyze_some h
  rw [hf'] at hf
  rw [hl'] at hl
  obtain rfl : f' = f := Option.some_injective _ hf
  obtain rfl : l' = l := Option.some_injective _ hl
  exact ⟨rfl, rfl, rfl, rfl, rfl, rfl, rfl, rfl, rfl, rfl, rfl, rfl, rfl⟩

/-- Witness for C4's amended statement at the counterexample input. -/
theorem analyze_rounding_amended_app :
    mkResult vrA vrB = mkResult vrA vrB
    ∧ (mkResult vrA vrB).weightChange = round1 (vrA.weight - vrB.weight)
    ∧ (mkResult vrA vrB).visceralFatChange = vrA.visceralFat - vrB.visceralFat := by
  have e : filteredOf [vrA, vrB] none = [vrA, vrB] := sortByDate_pair (by decide)
  have h := analyze_rounding_amended [vrA, vrB] none vrA vrB (mkResult vrA vrB)
    (by rw [e] ; rfl) (by rw [e] ; rfl) (analyze_pair (by decide))
  exact ⟨h.1, h.2.1, h.2.2.2.2.2.2.2.2.2.2.2.2⟩

end TCMFBT

namespace TCMFBT

/-! ### C5 -/

/-- Counterexample to C5 as stated: the two lists are permutations of each
other, but because the two records share the same date the stable sort keeps
the input order, so the endpoints swap and `analyze` returns different
results (`weightChange` is `5` in one order and `-5` in the other).
Order-independence fails when several records share the same date. -/
theorem analyze_order_dependent_cex :
    [sdA, sdB].Perm [sdB, sdA]
    ∧ analyze [sdA, sdB] none ≠ analyze [sdB, sdA] none := by
  refine ⟨List.Perm.swap sdB sdA [], ?_⟩
  rw [analyze_pair (by decide), analyze_pair (by decide)]
  intro hcontra
  simp only [Option.some.injEq] at hcontra
  have h1 : (mkResult sdA sdB).weightChange = 5 := by
    rw [mkResult_weightChange] ; norm_num [sdA, sdB, round1]
  have h2 : (mkResult sdB sdA).weightChange = -5 := by
    rw [mkResult_weightChange] ; norm_num [sdA, sdB, round1]
  rw [hcontra, h2] at h1
  norm_num at h1

/-- C5 amended: when all record dates are pairwise distinct, `analyze` is
invariant under every permutation of the input list (for tied dates the
stable sort makes the result depend on the input order, as the
counterexample shows). -/
theorem analyze_perm_invariant_amended (l1 l2 : List WeightRecord)
    (s : Option Int) (hp : l1.Perm l2)
    (hd : (l1.map WeightRecord.date).Nodup) :
    analyze l1 s = analyze l2 s := by
  have hsort := sortByDate_eq_of_perm hp hd
  rw [analyze_eq, analyze_eq, filteredOf_congr s hsort]

/-- Witness for C5's amended statement: with two distinct dates, swapping the
input order leaves the result unchanged. -/
theorem analyze_perm_invariant_amended_app :
    analyze [pdA, pdB] none = analyze [pdB, pdA] none :=
  analyze_perm_invariant_amended [pdA, pdB] [pdB, pdA] none
    (List.Perm.swap pdB pdA []) (by decide)

/-! ### C6 -/

/-- Counterexample to C6 as stated: the weight genuinely decreases
(90.04 to 90) and the muscle mass increases, yet `weightChange` is the
one-decimal rounding of 0.04, i.e. exactly `0` — neither equal to the raw
difference `firstRecord.weight - lastRecord.weight` nor strictly positive. -/
theorem change_sign_cex :
    analyze [cxA, cxB] none = some (mkResult cxA cxB)
    ∧ cxB.weight < cxA.weight
    ∧ cxA.muscleMass < cxB.muscleMass
    ∧ (mkResult cxA cxB).weightChange = 0
    ∧ ¬ 0 < (mkResult cxA cxB).weightChange
    ∧ (mkResult cxA cxB).weightChange ≠ cxA.weight - cxB.weight := by
  have h0 : (mkResult cxA cxB).weightChange = 0 := by
    rw [mkResult_weightChange] ; norm_num [cxA, cxB, round1]
  refine ⟨analyze_pair (by decide), by norm_num [cxA, cxB], by norm_num [cxA, cxB],
    h0, by rw [h0] ; norm_num, by rw [h0] ; norm_num [cxA, cxB]⟩

/-- C6 amended: in every non-`none` result with endpoints `f` and `l`,
`weightChange`, `bodyFatChange`, `bmiChange` and `visceralFatChange` are the
(rounded, except visceral fat) differences `first - last` (positive means
decrease) while `muscleMassChange` and `waterRateChange` are the rounded
differences `last - first` (positive means increase); whenever the weight
decreases and the muscle mass increases between the endpoints, both
`weightChange` and `muscleMassChange` are nonnegative (strict positivity can
be lost to the one-decimal rounding, as the counterexample shows). -/
theorem change_fields_amended (records : List WeightRecord) (s : Option Int)
    (f l : WeightRecord) (r : AnalysisResult)
    (hf : (filteredOf records s).head? = some f)
    (hl : (filteredOf records s).getLast? = some l)
    (h : analyze records s = some r) :
    r.weightChange = round1 (f.weight - l.weight)
    ∧ r.bodyFatChange = round1 (f.bodyFat - l.bodyFat)
    ∧ r.bmiChange = round1 (f.bmi - l.bmi)
    ∧ r.visceralFatChange = f.visceralFat - l.visceralFat
    ∧ r.muscleMassChange = round1 (l.muscleMass - f.muscleMass)
    ∧ r.waterRateChange = round1 (l.waterRate - f.waterRate)
    ∧ (l.weight < f.weight → 0 ≤ r.weightChange)
    ∧ (f.muscleMass < l.muscleMass → 0 ≤ r.muscleMassChange) := by
  obtain ⟨f', l', hf', hl', rfl⟩ := analyze_some h
  rw [hf'] at hf
  rw [hl'] at hl
  obtain rfl : f' = f := Option.some_injective _ hf
  obtain rfl : l' = l := Option.some_injective _ hl
  refine ⟨rfl, rfl, rfl, rfl, rfl, rfl, ?_, ?_⟩
  · intro hlt
    rw [mkResult_weightChange]
    exact round1_nonneg (by linarith)
  · intro hlt
    rw [mkResult_muscleMassChange]
    exact round1_nonneg (by linarith)

/-- Witness for C6's amended statement at the spec's concrete scenario pair,
where the weight decreases by 5 kg and the muscle mass increases by 1 kg. -/
theorem change_fields_amended_app :
    (mkResult jan1Record jan15Record).weightChange =
      round1 (jan1Record.weight - jan15Record.weight)
    ∧ 0 ≤ (mkResult jan1Record jan15Record).weightChange
    ∧ 0 ≤ (mkResult jan1Record jan15Record).muscleMassChange := by
  have e : filteredOf [jan1Record, jan15Record] none = [jan1Record, jan15Record] :=
    sortByDate_pair (by decide)
  have h := change_fields_amended [jan1Record, jan15Record] none jan1Record
    jan15Record (mkResult jan1Record jan15Record)
    (by rw [e] ; rfl) (by rw [e] ; rfl) (analyze_pair (by decide))
  exact ⟨h.1, h.2.2.2.2.2.2.1 (by norm_num [jan1Record, jan15Record]),
    h.2.2.2.2.2.2.2 (by norm_num [jan1Record, jan15Record])⟩

/-! ### C9 -/

/-- C9: two-run noninterference — for any two record lists and start dates
whose sorted-and-filtered series agree on the first record and on the last
record, `analyze` returns identical results; intermediate records influence
nothing beyond membership and the choice of endpoints. -/
theorem analyze_endpoint_noninterference (l1 l2 : List WeightRecord)
    (s1 s2 : Option Int)
    (hh : (filteredOf l1 s1).head? = (filteredOf l2 s2).head?)
    (hl : (filteredOf l1 s1).getLast? = (filteredOf l2 s2).getLast?) :
    analyze l1 s1 = analyze l2 s2 := by
  rw [analyze_eq, analyze_eq, hh, hl]

/-- Witness for C9: inserting an extreme middle record between the same two
endpoints does not change the analysis result. -/
theorem analyze_endpoint_noninterference_app :
    analyze [wrA, wpM, wpB] none = analyze [wrA, wpB] none := by
  have e1 : filteredOf [wrA, wpM, wpB] none = [wrA, wpM, wpB] :=
    sortByDate_triple (by decide) (by decide)
  have e2 : filteredOf [wrA, wpB] none = [wrA, wpB] := sortByDate_pair (by decide)
  exact analyze_endpoint_noninterference [wrA, wpM, wpB] [wrA, wpB] none none
    (by rw [e1, e2] ; rfl) (by rw [e1, e2] ; rfl)

end TCMFBT
